import Mathlib

/-!
Shallow embedding of the real-time audio streaming session core of the
Nexus application (the `LiveView` component): PCM encoding of captured
frames, the capture-tick handler with its mute gate, the inbound-message
handler of the output playback scheduler, the interruption reset, the
error handlers, and the idempotent `cleanup` teardown routine.

Samples and clock times are modelled as rationals (the source computes
with IEEE doubles; every concrete value appearing in the claims is
exactly representable, and the scheduling and gating logic uses only
comparison, `max`, addition and multiplication, which agree with exact
arithmetic on those values).  Side effects on the audio sink and the
transport are made explicit as an `Action` list returned next to the
updated state.
-/

namespace Nexus

/-- The mutable state held by the `LiveView` component: the React state
cells (`isConnected`, `isMuted`, `volume`, `error`) and the refs
(`inputAudioContextRef`, `outputAudioContextRef`, `inputSourceRef`,
`processorRef`, `nextStartTimeRef`, `sessionPromiseRef`,
`currentSessionRef`).  Resource refs are modelled as `Bool`
(present/null). -/
structure LiveState where
  isConnected : Bool
  isMuted : Bool
  volume : ℚ
  error : Option String
  inputAudioContext : Bool
  outputAudioContext : Bool
  inputSource : Bool
  processor : Bool
  nextStartTime : ℚ
  sessionPromise : Bool
  currentSession : Bool
  deriving Repr, DecidableEq

/-- Initial values of the state cells and refs (`useState(false)`,
`useRef(0)`, `useRef(null)` ... at component mount). -/
def initialState : LiveState :=
  { isConnected := false
    isMuted := false
    volume := 0
    error := none
    inputAudioContext := false
    outputAudioContext := false
    inputSource := false
    processor := false
    nextStartTime := 0
    sessionPromise := false
    currentSession := false }

/-- Observable side effects of the handlers: releasing resources,
scheduling a decoded buffer on the audio sink (`source.start startTime`),
sending an encoded chunk over the transport
(`session.sendRealtimeInput`), and starting a new connection attempt. -/
inductive Action where
  | disconnectProcessor
  | disconnectSource
  | closeInputCtx
  | closeOutputCtx
  | closeSession
  | scheduleSource (startTime : ℚ)
  | send (payload : List ℤ)
  | connectCall
  deriving Repr, DecidableEq

/-- The `cleanup` routine (part_000 lines 25-49): disconnects the
processor and input source, closes both audio contexts and the current
session — each guarded by a null check — then nulls the session promise,
clears `isConnected` and zeroes `volume`.  (It does NOT touch
`nextStartTimeRef` or `error`.) -/
def cleanup (s : LiveState) : LiveState × List Action :=
  let acts :=
    (if s.processor then [Action.disconnectProcessor] else []) ++
    (if s.inputSource then [Action.disconnectSource] else []) ++
    (if s.inputAudioContext then [Action.closeInputCtx] else []) ++
    (if s.outputAudioContext then [Action.closeOutputCtx] else []) ++
    (if s.currentSession then [Action.closeSession] else [])
  ({ s with
      processor := false
      inputSource := false
      inputAudioContext := false
      outputAudioContext := false
      currentSession := false
      sessionPromise := false
      isConnected := false
      volume := 0 },
   acts)

/-- `Math.max(-1, Math.min(1, x))` — the clamp in the capture handler
(line 114). -/
def clamp1 (x : ℚ) : ℚ := max (-1) (min 1 x)

/-- The asymmetric scaling `s < 0 ? s * 0x8000 : s * 0x7FFF`
(line 115). -/
def scaleSample (s : ℚ) : ℚ := if s < 0 then s * 32768 else s * 32767

/-- Truncation toward zero, the first step of the ECMAScript `ToInt16`
conversion applied when a double is stored into an `Int16Array`. -/
def ratTrunc (q : ℚ) : ℤ := if 0 ≤ q then ⌊q⌋ else -⌊-q⌋

/-- The wrap-around step of `ToInt16`: reduce modulo 2^16 into
[-32768, 32767]. -/
def toInt16 (t : ℤ) : ℤ :=
  let m := t % 65536
  if m < 32768 then m else m - 65536

/-- `int16[i] = s < 0 ? s * 0x8000 : s * 0x7FFF` after the clamp: the
value stored for one sample. -/
def sampleToInt16 (x : ℚ) : ℤ := toInt16 (ratTrunc (scaleSample (clamp1 x)))

/-- The `Int16Array` produced from a captured frame (lines 110-116). -/
def encodeFrame (frame : List ℚ) : List ℤ := frame.map sampleToInt16

/-- Little-endian byte pair of one stored 16-bit sample, as laid out in
the `Int16Array`'s backing buffer. -/
def int16ToBytesLE (v : ℤ) : List ℕ :=
  let u := (v % 65536).toNat
  [u % 256, u / 256]

/-- The raw byte buffer (`int16.buffer`) serialized from a captured
frame: two little-endian bytes per sample. -/
def encodeFrameBytes (frame : List ℚ) : List ℕ :=
  ((frame.map sampleToInt16).map int16ToBytesLE).flatten

/-- `sum += inputData[i] * inputData[i]` then `sum / inputData.length`
(lines 103-105), the quantity under the square root of the volume
computation. -/
def meanSquare (frame : List ℚ) : ℚ :=
  (frame.map (fun x => x * x)).sum / (frame.length : ℚ)

/-- The `onaudioprocess` capture-tick handler (lines 99-129),
parameterized by the square-root routine `sqrtFn` (`Math.sqrt`): it
always computes and publishes the volume, then — only when the mute flag
is clear — converts the frame to 16-bit PCM and submits it to the
session (`sendRealtimeInput`). -/
def onaudioprocess (sqrtFn : ℚ → ℚ) (frame : List ℚ) (s : LiveState) :
    LiveState × List Action :=
  let s1 := { s with volume := sqrtFn (meanSquare frame) }
  if s.isMuted then (s1, [])
  else (s1, [Action.send (encodeFrame frame)])

/-- A decoded playable buffer: all the scheduler uses is its duration
(seconds). -/
structure Buffer where
  duration : ℚ
  deriving Repr, DecidableEq

/-- One inbound server message as seen by `onmessage`: zero or one
base64 audio payload (`msg.serverContent?.modelTurn?.parts?.[0]?.inlineData?.data`,
modelled as the decoded byte sequence) and the optional
`serverContent?.interrupted` flag. -/
structure ServerMessage where
  audioData : Option (List ℕ)
  interrupted : Bool
  deriving Repr, DecidableEq

/-- The `onmessage` handler (lines 134-168), parameterized by the
decoder `decode` (`decodeAudioData`; `none` models a decode failure
caught by the `try`/`catch`) and the output clock reading `now`
(`outputAudioContextRef.current.currentTime`).  On a successful decode
it schedules the buffer at `max(nextStartTime, now)` and advances the
cursor by the buffer's duration; on decode failure it only logs.  Then,
if the message carries the `interrupted` flag, it resets the cursor to
0. -/
def onmessage (decode : List ℕ → Option Buffer) (now : ℚ)
    (msg : ServerMessage) (s : LiveState) : LiveState × List Action :=
  let (s1, acts1) :=
    match msg.audioData with
    | none => (s, ([] : List Action))
    | some bytes =>
      if s.outputAudioContext then
        match decode bytes with
        | none => (s, [])
        | some buf =>
          let startTime := max s.nextStartTime now
          ({ s with nextStartTime := startTime + buf.duration },
           [Action.scheduleSource startTime])
      else (s, [])
  if msg.interrupted then ({ s1 with nextStartTime := 0 }, acts1)
  else (s1, acts1)

/-- The `onerror` callback (lines 173-177): sets the user-visible error
message, then runs `cleanup`. -/
def onerror (s : LiveState) : LiveState × List Action :=
  cleanup { s with error := some "Connection error. Please try again." }

/-- The `catch` branch of `connect` (lines 184-188): a failed open sets
the user-visible error message (`err.message || "Failed to access
microphone or connect."`), then runs `cleanup`. -/
def connectFail (emsg : String) (s : LiveState) : LiveState × List Action :=
  cleanup { s with error := some emsg }

/-- The state updates `connect` performs before its first await point
resolves (lines 56-66, 181): clears the error and installs fresh input
and output audio contexts and the session promise.  It does NOT touch
`nextStartTimeRef`. -/
def connectSetup (s : LiveState) : LiveState :=
  { s with
      error := none
      inputAudioContext := true
      outputAudioContext := true
      sessionPromise := true }

/-- The `onopen` callback's state updates (lines 85-97): marks the
session connected and installs the media-stream source and the script
processor. -/
def onopen (s : LiveState) : LiveState :=
  { s with isConnected := true, inputSource := true, processor := true }

/-- All resource refs are released (null) in a state. -/
def resourcesReleased (s : LiveState) : Prop :=
  s.processor = false ∧ s.inputSource = false ∧
  s.inputAudioContext = false ∧ s.outputAudioContext = false ∧
  s.currentSession = false ∧ s.sessionPromise = false

instance (s : LiveState) : Decidable (resourcesReleased s) := by
  unfold resourcesReleased; infer_instance

/-- Folding a sequence of timestamped inbound messages through the
`onmessage` handler (each event pairs the output-clock reading at
arrival with the message). -/
def runMessages (decode : List ℕ → Option Buffer)
    (evs : List (ℚ × ServerMessage)) (s : LiveState) : LiveState :=
  evs.foldl (fun st ev => (onmessage decode ev.1 ev.2 st).1) s

/-- A state in which a previous session ran: connected, with the
playback cursor advanced to 10 s by scheduled playback and the resolved
session handle stored. -/
def sPrior : LiveState :=
  { onopen (connectSetup initialState) with
      nextStartTime := 10
      currentSession := true }

/-! ## Supporting lemmas -/

theorem clamp1_bounds (x : ℚ) : -1 ≤ clamp1 x ∧ clamp1 x ≤ 1 := by
  unfold clamp1
  exact ⟨le_max_left _ _, max_le (by norm_num) (min_le_left _ _)⟩

theorem ratTrunc_scale_clamp_bounds (x : ℚ) :
    -32768 ≤ ratTrunc (scaleSample (clamp1 x)) ∧
    ratTrunc (scaleSample (clamp1 x)) ≤ 32767 := by
  obtain ⟨hlo, hhi⟩ := clamp1_bounds x
  set c := clamp1 x with hc
  unfold scaleSample ratTrunc
  by_cases hneg : c < 0
  · have hv : c * 32768 < 0 := mul_neg_of_neg_of_pos hneg (by norm_num)
    have hnot : ¬ (0 ≤ c * 32768) := not_le.mpr hv
    simp only [hneg, if_true, hnot, if_false]
    have h1 : 0 ≤ -(c * 32768) := by linarith
    have h2 : -(c * 32768) ≤ 32768 := by nlinarith
    have hfl : 0 ≤ ⌊-(c * 32768)⌋ := Int.floor_nonneg.mpr h1
    have hfu : ⌊-(c * 32768)⌋ ≤ 32768 := by
      calc ⌊-(c * 32768)⌋ ≤ ⌊(32768 : ℚ)⌋ := Int.floor_mono h2
        _ = 32768 := by norm_num
    omega
  · have h0 : 0 ≤ c := not_lt.mp hneg
    have hv : 0 ≤ c * 32767 := mul_nonneg h0 (by norm_num)
    simp only [hneg, if_false, hv, if_true]
    have hfl : 0 ≤ ⌊c * 32767⌋ := Int.floor_nonneg.mpr hv
    have hfu : ⌊c * 32767⌋ ≤ 32767 := by
      calc ⌊c * 32767⌋ ≤ ⌊(32767 : ℚ)⌋ := Int.floor_mono (by nlinarith)
        _ = 32767 := by norm_num
    omega

theorem toInt16_eq_self (t : ℤ) (h1 : -32768 ≤ t) (h2 : t ≤ 32767) :
    toInt16 t = t := by
  unfold toInt16
  dsimp only
  omega

theorem sampleToInt16_eq_trunc (x : ℚ) :
    sampleToInt16 x = ratTrunc (scaleSample (clamp1 x)) := by
  obtain ⟨h1, h2⟩ := ratTrunc_scale_clamp_bounds x
  exact toInt16_eq_self _ h1 h2

theorem onmessage_step_cursor_mono (decode : List ℕ → Option Buffer)
    (now : ℚ) (msg : ServerMessage) (s : LiveState)
    (hni : msg.interrupted = false)
    (hdur : ∀ bytes buf, decode bytes = some buf → 0 ≤ buf.duration) :
    s.nextStartTime ≤ (onmessage decode now msg s).1.nextStartTime := by
  unfold onmessage
  rcases msg with ⟨audio, intr⟩
  simp only at hni
  subst hni
  cases audio with
  | none => simp
  | some bytes =>
    simp only
    by_cases hctx : s.outputAudioContext
    · simp only [hctx, if_true]
      cases hdec : decode bytes with
      | none => simp
      | some buf =>
        simp only
        have : s.nextStartTime ≤ max s.nextStartTime now + buf.duration :=
          le_add_of_le_of_nonneg (le_max_left _ _) (hdur bytes buf hdec)
        simpa using this
    · simp [hctx]

/-! ## Claim theorems -/

/-- C1: When an `interrupted` message arrives with the playback cursor
at 5.0 s and the output clock reading 2.0 s, the handler sets
`nextStartTime` to absolute zero, not to the clock's current time 2.0 s
as the claim states: the code writes `nextStartTimeRef.current = 0`. -/
theorem interrupt_resets_cursor_to_zero_not_now :
    (onmessage (fun _ => none) 2 ⟨none, true⟩
        { initialState with outputAudioContext := true, nextStartTime := 5 }
      ).1.nextStartTime = 0 ∧ (0 : ℚ) ≠ 2 := by
  constructor
  · simp [onmessage]
  · norm_num

/-- C2: For every inbound chunk that decodes successfully (with the
output context present and no interruption flag), the handler schedules
the buffer at `max(nextStartTime, now)` on the sink and advances the
cursor to that start time plus the buffer's duration. -/
theorem onmessage_schedules_at_max_and_advances
    (decode : List ℕ → Option Buffer) (now : ℚ) (bytes : List ℕ)
    (buf : Buffer) (s : LiveState)
    (hctx : s.outputAudioContext = true)
    (hdec : decode bytes = some buf) :
    onmessage decode now ⟨some bytes, false⟩ s =
      ({ s with nextStartTime := max s.nextStartTime now + buf.duration },
       [Action.scheduleSource (max s.nextStartTime now)]) := by
  simp [onmessage, hctx, hdec]

/-- Decoder used in the two-chunk scenario: chunk `[0]` decodes to a
1.0 s buffer, chunk `[1]` to a 0.5 s buffer. -/
def twoChunkDecoder (bytes : List ℕ) : Option Buffer :=
  if bytes = [0] then some ⟨1⟩ else some ⟨1/2⟩

/-- Witness for C2, the spec's scenario: two chunks of duration 1.0 s
and 0.5 s arriving back-to-back with the output clock at t = 0 are
scheduled at t = 0 and t = 1.0, and the cursor ends at t = 1.5. -/
theorem onmessage_two_chunk_scenario :
    onmessage twoChunkDecoder 0 ⟨some [0], false⟩
        { initialState with outputAudioContext := true } =
      ({ initialState with outputAudioContext := true, nextStartTime := 1 },
       [Action.scheduleSource 0]) ∧
    onmessage twoChunkDecoder 0 ⟨some [1], false⟩
        { initialState with outputAudioContext := true, nextStartTime := 1 } =
      ({ initialState with outputAudioContext := true, nextStartTime := 3/2 },
       [Action.scheduleSource 1]) := by
  constructor
  · rw [onmessage_schedules_at_max_and_advances twoChunkDecoder 0 [0] ⟨1⟩ _
      rfl (by simp [twoChunkDecoder])]
    simp [initialState]
  · rw [onmessage_schedules_at_max_and_advances twoChunkDecoder 0 [1] ⟨1/2⟩ _
      rfl (by simp [twoChunkDecoder])]
    simp [initialState]
    norm_num

/-- C5: The capture-tick handler always computes and publishes the
volume from the frame (identically whether muted or not); while muted it
performs no send call, and while unmuted it encodes the frame and
submits exactly one send. -/
theorem mute_suppresses_send_keeps_amplitude
    (sqrtFn : ℚ → ℚ) (frame : List ℚ) (s : LiveState) :
    (onaudioprocess sqrtFn frame { s with isMuted := true }).2 = [] ∧
    (onaudioprocess sqrtFn frame { s with isMuted := true }).1.volume =
      sqrtFn (meanSquare frame) ∧
    (onaudioprocess sqrtFn frame { s with isMuted := false }).1.volume =
      sqrtFn (meanSquare frame) ∧
    (onaudioprocess sqrtFn frame { s with isMuted := false }).2 =
      [Action.send (encodeFrame frame)] := by
  refine ⟨?_, ?_, ?_, ?_⟩ <;> simp [onaudioprocess]

/-- C7: An inbound chunk whose decode fails is dropped: the handler
leaves the entire state unchanged (cursor, error surface, connection
flag and all resources) and schedules nothing on the sink. -/
theorem decode_failure_drops_chunk (decode : List ℕ → Option Buffer)
    (now : ℚ) (bytes : List ℕ) (s : LiveState)
    (hdec : decode bytes = none) :
    onmessage decode now ⟨some bytes, false⟩ s = (s, []) := by
  unfold onmessage
  simp only [hdec]
  by_cases hctx : s.outputAudioContext <;> simp [hctx]

/-- Witness for C7 at a concrete input: a failing decoder leaves the
freshly connected state untouched and schedules nothing. -/
theorem decode_failure_drops_chunk_witness :
    onmessage (fun _ => none) 7 ⟨some [3, 5], false⟩
        { initialState with outputAudioContext := true } =
      ({ initialState with outputAudioContext := true }, []) :=
  decode_failure_drops_chunk (fun _ => none) 7 [3, 5] _ rfl

/-- C10: An inbound message with no audio payload and no interruption
flag is a no-op: the state (cursor included) is unchanged and nothing is
scheduled. -/
theorem empty_message_noop (decode : List ℕ → Option Buffer) (now : ℚ)
    (s : LiveState) :
    onmessage decode now ⟨none, false⟩ s = (s, []) := by
  simp [onmessage]

theorem encodeFrameBytes_length (frame : List ℚ) :
    (encodeFrameBytes frame).length = 2 * frame.length := by
  unfold encodeFrameBytes
  induction frame with
  | nil => simp
  | cons x xs ih =>
    simp only [List.map_cons, List.flatten_cons, List.length_append, ih,
      List.length_cons]
    simp [int16ToBytesLE]
    omega

theorem sampleToInt16_half : sampleToInt16 (1/2) = 16383 := by
  norm_num [sampleToInt16, toInt16, ratTrunc, scaleSample, clamp1]

/-- C3 counterexample: the sample 0.5 is stored as
`trunc(0.5 * 32767) = 16383`, whereas `round(0.5 * 32767) = 16384`: the
`Int16Array` store truncates toward zero, it does not round, so the
claim's scenario value is off by one. -/
theorem encode_half_sample_not_rounded :
    sampleToInt16 (1/2) = 16383 ∧
    round ((1/2 : ℚ) * 32767) = 16384 ∧
    (16383 : ℤ) ≠ 16384 := by
  refine ⟨sampleToInt16_half, ?_, by norm_num⟩
  norm_num [round_eq]

/-- C3 (amended): every sample is clamped to [-1, 1] and scaled
asymmetrically (by 32768 when negative, 32767 otherwise), and the stored
16-bit value — truncation toward zero of the scaled sample — never
overflows the signed 16-bit range; a frame of 4096 samples all equal to
0.5 encodes to 8192 little-endian bytes whose 16-bit samples all equal
`trunc(0.5 * 32767) = 16383`. -/
theorem encode_clamps_scales_truncates :
    (∀ x : ℚ, -32768 ≤ sampleToInt16 x ∧ sampleToInt16 x ≤ 32767) ∧
    (∀ x : ℚ, sampleToInt16 x = ratTrunc (scaleSample (clamp1 x))) ∧
    encodeFrame (List.replicate 4096 (1/2)) = List.replicate 4096 16383 ∧
    (encodeFrameBytes (List.replicate 4096 (1/2))).length = 8192 := by
  refine ⟨?_, sampleToInt16_eq_trunc, ?_, ?_⟩
  · intro x
    have h := ratTrunc_scale_clamp_bounds x
    rw [sampleToInt16_eq_trunc x]
    exact h
  · unfold encodeFrame
    rw [List.map_replicate, sampleToInt16_half]
  · rw [encodeFrameBytes_length, List.length_replicate]

/-- C4: the teardown routine `cleanup` never resets `nextStartTimeRef`,
and `connect` does not reinitialize it either: after a prior session
left the cursor at 10 s, a stop/start cycle hands the new session a
cursor still at 10 s (not a fresh 0), so its first inbound chunk at
output-clock time 0 is scheduled at t = 10 instead of t = 0. -/
theorem cleanup_connect_leaves_stale_cursor :
    (connectSetup (cleanup sPrior).1).nextStartTime = 10 ∧
    ((10 : ℚ) ≠ 0) ∧
    (onmessage (fun _ => some ⟨1⟩) 0 ⟨some [0], false⟩
        (connectSetup (cleanup sPrior).1)).2 =
      [Action.scheduleSource 10] := by
  refine ⟨rfl, by norm_num, ?_⟩
  simp [onmessage, connectSetup, cleanup, sPrior, onopen, initialState]

/-- C6: across any sequence of inbound messages none of which carries
the interruption flag (with every decodable buffer of nonnegative
duration), the playback cursor is monotonically non-decreasing. -/
theorem cursor_monotone_without_interruption
    (decode : List ℕ → Option Buffer) (evs : List (ℚ × ServerMessage))
    (s : LiveState)
    (hni : ∀ ev ∈ evs, ev.2.interrupted = false)
    (hdur : ∀ bytes buf, decode bytes = some buf → 0 ≤ buf.duration) :
    s.nextStartTime ≤ (runMessages decode evs s).nextStartTime := by
  induction evs generalizing s with
  | nil => simp [runMessages]
  | cons ev evs ih =>
    have h1 := onmessage_step_cursor_mono decode ev.1 ev.2 s
      (hni ev (by simp)) hdur
    have h2 := ih (onmessage decode ev.1 ev.2 s).1
      (fun e he => hni e (by simp [he]))
    simp only [runMessages, List.foldl_cons] at h2 ⊢
    exact le_trans h1 h2

/-- Decoder used in the monotonicity witness: every chunk decodes to a
1.0 s buffer. -/
def unitDecoder : List ℕ → Option Buffer := fun _ => some ⟨1⟩

/-- Events used in the monotonicity witness: an audio chunk at clock 0,
a payload-free message at clock 2, an audio chunk at clock 3, none
interrupted. -/
def monotoneEvents : List (ℚ × ServerMessage) :=
  [(0, ⟨some [0], false⟩), (2, ⟨none, false⟩), (3, ⟨some [1], false⟩)]

/-- Witness for C6 at a concrete input: over three concrete
non-interrupting messages the cursor never decreases. -/
theorem cursor_monotone_witness :
    ({ initialState with outputAudioContext := true } :
        LiveState).nextStartTime ≤
      (runMessages unitDecoder monotoneEvents
        { initialState with outputAudioContext := true }).nextStartTime :=
  cursor_monotone_without_interruption unitDecoder monotoneEvents
    { initialState with outputAudioContext := true }
    (by intro ev hev; simp [monotoneEvents] at hev
        rcases hev with h | h | h <;> simp [h])
    (by intro bytes buf h; simp [unitDecoder] at h; simp [← h])

/-- C8: `cleanup` is idempotent — a second call performs no further
release actions and leaves the state exactly as the first call left it —
and after one call every resource ref (processor, input source, both
audio contexts, session handle and session promise) is empty. -/
theorem cleanup_idempotent (s : LiveState) :
    cleanup (cleanup s).1 = ((cleanup s).1, []) ∧
    resourcesReleased (cleanup s).1 := by
  constructor
  · simp [cleanup]
  · simp [cleanup, resourcesReleased]

theorem connectCall_not_mem_cleanup (s : LiveState) :
    Action.connectCall ∉ (cleanup s).2 := by
  intro h
  unfold cleanup at h
  simp only [List.mem_append] at h
  rcases h with ((((h | h) | h) | h) | h) <;>
    (split at h <;> simp_all)

/-- C9: a transport `error` event and a failed `open` both terminate the
current session: the user-visible error message is set, every resource
is released, the connected flag is false, and no reconnect action is
emitted. -/
theorem errors_teardown_no_reconnect (s : LiveState) (emsg : String) :
    (onerror s).1.error = some "Connection error. Please try again." ∧
    (onerror s).1.isConnected = false ∧
    resourcesReleased (onerror s).1 ∧
    Action.connectCall ∉ (onerror s).2 ∧
    (connectFail emsg s).1.error = some emsg ∧
    (connectFail emsg s).1.isConnected = false ∧
    resourcesReleased (connectFail emsg s).1 ∧
    Action.connectCall ∉ (connectFail emsg s).2 := by
  refine ⟨?_, ?_, ?_, ?_, ?_, ?_, ?_, ?_⟩
  · simp [onerror, cleanup]
  · simp [onerror, cleanup]
  · simp [onerror, cleanup, resourcesReleased]
  · exact connectCall_not_mem_cleanup _
  · simp [connectFail, cleanup]
  · simp [connectFail, cleanup]
  · simp [connectFail, cleanup, resourcesReleased]
  · exact connectCall_not_mem_cleanup _

end Nexus
